import Mathlib

/-!
Verification of the rust-wiiu/wups plugin library core: the typed persistent
storage layer (core/src/storage/mod.rs), the stateless config-menu attachment
protocol (core/src/config/mod.rs), and the descriptor/hook emitters
(macros/src/lib.rs).

Rust byte strings (keys and text/binary payloads) are modelled as lists of
byte values (`List Nat`); machine integers are modelled as their byte-level
memory representation, with explicit reductions modulo 2^width where the code
reinterprets memory.  The external WUPS storage host
(WUPSStorageAPI_GetItem / StoreItem / SaveStorage) is not part of this
repository; it is modelled from the spec as an in-memory typed key-value map.
-/

namespace Wups

/-- Byte strings (Rust `&str` / `String` / `Vec<u8>` contents) as lists of
byte values. -/
abbrev Bytes := List Nat

/-- Storage keys, as the byte content of the Rust `&str` key. -/
abbrev Key := List Nat

/-- Item type tags of the WUPS storage protocol
(`sys::WUPSStorageItemTypes`), one tag per supported value type. -/
inductive ItemType where
  | s32
  | s64
  | u32
  | u64
  | boolean
  | float
  | double
  | string
  | binary
deriving DecidableEq, Repr

/-- One item held by the external persistent store: its type tag and its raw
byte payload. -/
structure HostItem where
  type : ItemType
  data : Bytes
deriving DecidableEq, Repr

/-- Modelled from the spec: state of the external storage host (an external
collaborator, section 6 of the spec).  `items` is the typed key-value map;
`saveLog` records every `save_storage(force)` call made, so that flushing
behaviour is observable. -/
structure Host where
  items : List (Key × HostItem)
  saveLog : List Bool
deriving DecidableEq, Repr

/-- The empty host store. -/
def emptyHost : Host := ⟨[], []⟩

-- Modelled from the spec: the numeric values of the C enum
-- `WUPSStorageError` come from generated bindings that are not part of this
-- repository; the spec only requires them to be distinct negative codes,
-- with non-negative codes treated as success (section 4.4 / 7).

/-- Success status of the storage host. -/
def WUPS_STORAGE_ERROR_SUCCESS : Int := 0

/-- Status code for invalid arguments. -/
def WUPS_STORAGE_ERROR_INVALID_ARGS : Int := -1

/-- Status code for a failed allocation. -/
def WUPS_STORAGE_ERROR_MALLOC_FAILED : Int := -2

/-- Status code for a type-tag mismatch. -/
def WUPS_STORAGE_ERROR_UNEXPECTED_DATA_TYPE : Int := -3

/-- Status code for a too-small buffer. -/
def WUPS_STORAGE_ERROR_BUFFER_TOO_SMALL : Int := -4

/-- Status code for an already existing item. -/
def WUPS_STORAGE_ERROR_ALREADY_EXISTS : Int := -5

/-- Status code for an I/O failure. -/
def WUPS_STORAGE_ERROR_IO_ERROR : Int := -6

/-- Status code for a missing key. -/
def WUPS_STORAGE_ERROR_NOT_FOUND : Int := -7

/-- Status code for an uninitialized storage library. -/
def WUPS_STORAGE_ERROR_INTERNAL_NOT_INITIALIZED : Int := -8

/-- Status code for a storage version mismatch. -/
def WUPS_STORAGE_ERROR_INTERNAL_INVALID_VERSION : Int := -9

/-- Rust enum `StorageError` from core/src/storage/mod.rs.  The
`containsNullBytes` variant corresponds to `ContainsNullBytes(NulError)`,
raised locally by `CString::new` before any host call. -/
inductive StorageError where
  | invalidArgs
  | mallocFailed
  | unexpectedDataType
  | bufferTooSmall
  | alreadyExists
  | ioError
  | notFound
  | internalNotInitialized
  | internalInvalidVersion
  | unknownError (code : Int)
  | containsNullBytes
deriving DecidableEq, Repr

/-- Rust `impl TryFrom<i32> for StorageError` (core/src/storage/mod.rs,
lines 99-120): non-negative status codes convert to `Ok(UnknownError(v))`
(no error is raised), negative codes map one-to-one onto the specific error
variants, any unrecognized negative code falls back to `UnknownError`. -/
def StorageError.tryFrom (value : Int) : Except StorageError StorageError :=
  if 0 ≤ value then
    .ok (.unknownError value)
  else if value = WUPS_STORAGE_ERROR_INVALID_ARGS then .error .invalidArgs
  else if value = WUPS_STORAGE_ERROR_MALLOC_FAILED then .error .mallocFailed
  else if value = WUPS_STORAGE_ERROR_UNEXPECTED_DATA_TYPE then
    .error .unexpectedDataType
  else if value = WUPS_STORAGE_ERROR_BUFFER_TOO_SMALL then
    .error .bufferTooSmall
  else if value = WUPS_STORAGE_ERROR_ALREADY_EXISTS then .error .alreadyExists
  else if value = WUPS_STORAGE_ERROR_IO_ERROR then .error .ioError
  else if value = WUPS_STORAGE_ERROR_NOT_FOUND then .error .notFound
  else if value = WUPS_STORAGE_ERROR_INTERNAL_NOT_INITIALIZED then
    .error .internalNotInitialized
  else if value = WUPS_STORAGE_ERROR_INTERNAL_INVALID_VERSION then
    .error .internalInvalidVersion
  else .error (.unknownError value)

/-- Association-list lookup in the item map of the host. -/
def lookupItem : List (Key × HostItem) → Key → Option HostItem
  | [], _ => none
  | (k, it) :: rest, key => if k = key then some it else lookupItem rest key

/-- Association-list insert-or-replace in the item map of the host. -/
def insertItem : List (Key × HostItem) → Key → HostItem → List (Key × HostItem)
  | [], key, it => [(key, it)]
  | (k, old) :: rest, key, it =>
    if k = key then (key, it) :: rest else (k, old) :: insertItem rest key it

/-- Modelled from the spec: host call
`get_item(key, type_tag, out_buffer, buffer_len) -> status` (section 6).
Returns the status, the bytes written into the buffer of the caller, and the
number of bytes read (`outSize`).  An absent key yields `NOT_FOUND`, a tag
mismatch yields `UNEXPECTED_DATA_TYPE`, an item larger than the buffer
yields `BUFFER_TOO_SMALL`; otherwise the bytes of the item are returned whole. -/
def hostGetItem (h : Host) (key : Key) (ty : ItemType) (bufferLen : Nat) :
    Int × Bytes × Nat :=
  match lookupItem h.items key with
  | none => (WUPS_STORAGE_ERROR_NOT_FOUND, [], 0)
  | some it =>
    if it.type ≠ ty then (WUPS_STORAGE_ERROR_UNEXPECTED_DATA_TYPE, [], 0)
    else if bufferLen < it.data.length then
      (WUPS_STORAGE_ERROR_BUFFER_TOO_SMALL, [], 0)
    else (WUPS_STORAGE_ERROR_SUCCESS, it.data, it.data.length)

/-- Modelled from the spec: host call
`store_item(key, type_tag, in_buffer, buffer_len) -> status` (section 6);
creates the item on first store, overwrites it on a repeated store with the
same key.  The in-memory model always succeeds. -/
def hostStoreItem (h : Host) (key : Key) (ty : ItemType) (data : Bytes) :
    Int × Host :=
  (WUPS_STORAGE_ERROR_SUCCESS, ⟨insertItem h.items key ⟨ty, data⟩, h.saveLog⟩)

/-- Modelled from the spec: host call `save_storage(force) -> status`
(section 6), flushing pending writes; the model records the call. -/
def hostSaveStorage (h : Host) (force : Bool) : Int × Host :=
  (WUPS_STORAGE_ERROR_SUCCESS, ⟨h.items, h.saveLog ++ [force]⟩)

/-- Little-endian byte decomposition of a machine value: `natToBytes n v`
is the `n`-byte memory image of `v`. -/
def natToBytes : Nat → Nat → Bytes
  | 0, _ => []
  | n + 1, v => v % 256 :: natToBytes n (v / 256)

/-- Reassembling a machine value from its byte-level memory image. -/
def bytesToNat : Bytes → Nat
  | [] => 0
  | b :: rest => b + 256 * bytesToNat rest

theorem natToBytes_length (n v : Nat) : (natToBytes n v).length = n := by
  induction n generalizing v with
  | zero => rfl
  | succ n ih => simp [natToBytes, ih]

theorem bytesToNat_natToBytes (n v : Nat) (h : v < 256 ^ n) :
    bytesToNat (natToBytes n v) = v := by
  induction n generalizing v with
  | zero =>
    simp [natToBytes, bytesToNat]
    omega
  | succ n ih =>
    have hdiv : v / 256 < 256 ^ n := by
      rw [Nat.div_lt_iff_lt_mul (by norm_num)]
      calc v < 256 ^ (n + 1) := h
        _ = 256 ^ n * 256 := by ring
    simp [natToBytes, bytesToNat, ih (v / 256) hdiv]
    omega

theorem lookupItem_insertItem_self (l : List (Key × HostItem)) (key : Key)
    (it : HostItem) : lookupItem (insertItem l key it) key = some it := by
  induction l with
  | nil => simp [insertItem, lookupItem]
  | cons hd tl ih =>
    by_cases hk : hd.1 = key
    · simp [insertItem, hk, lookupItem]
    · simp [insertItem, hk, lookupItem, ih]

/-- Constant `STORAGE_MAX_LENGTH` (core/src/storage/mod.rs, line 122). -/
def STORAGE_MAX_LENGTH : Nat := 1024

/-- One instantiation of the Rust `StorageCompatible` trait for a fixed-width
type: its WUPS type tag and its `size_of::<T>()` in bytes. -/
structure FixedTy where
  tag : ItemType
  size : Nat
deriving DecidableEq, Repr

/-- The seven fixed-width instantiations of `StorageCompatible`
(core/src/storage/mod.rs, lines 169-209): i32, i64, u32, u64, bool, f32,
f64, with their byte widths. -/
def supportedFixed : List FixedTy :=
  [⟨.s32, 4⟩, ⟨.s64, 8⟩, ⟨.u32, 4⟩, ⟨.u64, 8⟩, ⟨.boolean, 1⟩,
   ⟨.float, 4⟩, ⟨.double, 8⟩]

/-- Default method `StorageCompatible::load` (core/src/storage/mod.rs, lines
128-147): build a C string from the key (failing with `ContainsNullBytes` on
an interior null byte), call the host `GetItem` with a buffer of
`size_of::<T>()` bytes over a zero-initialized default value, map the status
through `StorageError::try_from`, and reinterpret the resulting memory as the
value.  Bytes beyond the short read of the host keep their zero default. -/
def StorageCompatible.load (F : FixedTy) (key : Key) (h : Host) :
    Except StorageError Nat :=
  if key.contains 0 then .error .containsNullBytes
  else
    match hostGetItem h key F.tag F.size with
    | (status, bytes, _out) =>
      match StorageError.tryFrom status with
      | .error e => .error e
      | .ok _ => .ok (bytesToNat (bytes ++ List.replicate (F.size - bytes.length) 0))

/-- Default method `StorageCompatible::store` (core/src/storage/mod.rs,
lines 149-164): build a C string from the key, then pass the
`size_of::<T>()`-byte memory image of the value to the host `StoreItem` and map the
status through `StorageError::try_from`. -/
def StorageCompatible.store (F : FixedTy) (key : Key) (v : Nat) (h : Host) :
    Except StorageError Unit × Host :=
  if key.contains 0 then (.error .containsNullBytes, h)
  else
    match hostStoreItem h key F.tag (natToBytes F.size v) with
    | (status, h2) =>
      match StorageError.tryFrom status with
      | .error e => (.error e, h2)
      | .ok _ => (.ok (), h2)

/-- Function `load_or_default` (core/src/storage/mod.rs, lines 338-344):
return the loaded value, or the `Default::default()` of the type (the all-zero
value for every fixed-width type) on any error. -/
def load_or_default (F : FixedTy) (key : Key) (h : Host) : Nat :=
  match StorageCompatible.load F key h with
  | .ok v => v
  | .error _ => 0

/-- Strip of at most one trailing NUL, as performed by
`s.strip_suffix(char of 0).unwrap_or(s)` on the loaded text.  On
well-formed UTF-8 the byte-level and char-level operations agree, since the
zero byte only ever encodes the NUL char. -/
def stripTrailingNul (s : Bytes) : Bytes :=
  if s.getLast? = some 0 then s.dropLast else s

/-- Method `<String as StorageCompatible>::load` (core/src/storage/mod.rs,
lines 218-239): read into a `STORAGE_MAX_LENGTH` buffer, take the `out`
bytes the host wrote, decode them (`String::from_utf8_lossy`, the identity
on the well-formed UTF-8 this layer itself stores), and strip at most one
trailing NUL. -/
def RustString.load (key : Key) (h : Host) : Except StorageError Bytes :=
  if key.contains 0 then .error .containsNullBytes
  else
    match hostGetItem h key .string STORAGE_MAX_LENGTH with
    | (status, bytes, _out) =>
      match StorageError.tryFrom status with
      | .error e => .error e
      | .ok _ => .ok (stripTrailingNul bytes)

/-- Method `<String as StorageCompatible>::store` (core/src/storage/mod.rs,
lines 241-260): build a C string from the key, reject values with
`value.len() >= STORAGE_MAX_LENGTH` with `BufferTooSmall` before any host
call, otherwise pass exactly `value.len()` bytes to the host `StoreItem`. -/
def RustString.store (key : Key) (value : Bytes) (h : Host) :
    Except StorageError Unit × Host :=
  if key.contains 0 then (.error .containsNullBytes, h)
  else if STORAGE_MAX_LENGTH ≤ value.length then (.error .bufferTooSmall, h)
  else
    match hostStoreItem h key .string value with
    | (status, h2) =>
      match StorageError.tryFrom status with
      | .error e => (.error e, h2)
      | .ok _ => (.ok (), h2)

/-- Method `<Vec<u8> as StorageCompatible>::load` (core/src/storage/mod.rs,
lines 268-287): like the text load but without the NUL strip. -/
def RustVecU8.load (key : Key) (h : Host) : Except StorageError Bytes :=
  if key.contains 0 then .error .containsNullBytes
  else
    match hostGetItem h key .binary STORAGE_MAX_LENGTH with
    | (status, bytes, _out) =>
      match StorageError.tryFrom status with
      | .error e => .error e
      | .ok _ => .ok bytes

/-- Method `<Vec<u8> as StorageCompatible>::store` (core/src/storage/mod.rs,
lines 289-308): same bound check as the text store, then pass the raw bytes
to the host `StoreItem`. -/
def RustVecU8.store (key : Key) (value : Bytes) (h : Host) :
    Except StorageError Unit × Host :=
  if key.contains 0 then (.error .containsNullBytes, h)
  else if STORAGE_MAX_LENGTH ≤ value.length then (.error .bufferTooSmall, h)
  else
    match hostStoreItem h key .binary value with
    | (status, h2) =>
      match StorageError.tryFrom status with
      | .error e => (.error e, h2)
      | .ok _ => (.ok (), h2)

/-- Function `save` (core/src/storage/mod.rs, lines 390-394): call the host
`SaveStorage(force)` and map the status. -/
def save (force : Bool) (h : Host) : Except StorageError Unit × Host :=
  match hostSaveStorage h force with
  | (status, h2) =>
    match StorageError.tryFrom status with
    | .error e => (.error e, h2)
    | .ok _ => (.ok (), h2)

/-- Twos-complement reading of a 4-byte memory image as a Rust `i32`. -/
def toI32 (n : Nat) : Int :=
  if n < 2 ^ 31 then (n : Int) else (n : Int) - 2 ^ 32

/-- Twos-complement 4-byte memory image of a Rust `i32` value. -/
def ofI32 (v : Int) : Nat := (v % 2 ^ 32).toNat

/-- Typed view `storage::load::<i32>`: the fixed-width load at tag S32,
reinterpreted as a signed value. -/
def loadI32 (key : Key) (h : Host) : Except StorageError Int :=
  match StorageCompatible.load ⟨.s32, 4⟩ key h with
  | .ok n => .ok (toI32 n)
  | .error e => .error e

/-- Typed view `storage::store::<i32>`: the fixed-width store at tag S32 of
the memory image of the value. -/
def storeI32 (key : Key) (v : Int) (h : Host) :
    Except StorageError Unit × Host :=
  StorageCompatible.store ⟨.s32, 4⟩ key (ofI32 v) h

/-- Typed view `storage::load::<u32>`: the fixed-width load at tag U32. -/
def loadU32 (key : Key) (h : Host) : Except StorageError Nat :=
  StorageCompatible.load ⟨.u32, 4⟩ key h

/-- Typed view `storage::store::<u32>`: the fixed-width store at tag U32. -/
def storeU32 (key : Key) (v : Nat) (h : Host) :
    Except StorageError Unit × Host :=
  StorageCompatible.store ⟨.u32, 4⟩ key v h

-- Config menu layer (core/src/config/mod.rs).

/-- Rust enum `MenuError` (core/src/config/mod.rs, lines 16-46).  The
`storage` variant wraps a `StorageError` (`#[from]`), `internalNullByte`
wraps a `NulError` from a C-string conversion. -/
inductive MenuError where
  | unknown (code : Int)
  | alreadyInitialized
  | invalidArgument
  | outOfMemory
  | notFound
  | invalidPluginIdentifier
  | missingCallback
  | moduleNotFound
  | moduleMissingExport
  | unsupportedVersion
  | unsupportedCommand
  | libUninitialized
  | storage (e : StorageError)
  | internalNullByte
deriving DecidableEq, Repr

-- Modelled from the spec: the numeric values of the C enum
-- `WUPSConfigAPICallbackStatus` come from generated bindings outside this
-- repository; the spec (section 6) only needs a success status distinct
-- from the error status.

/-- Success status returned by config callbacks
(`WUPSCONFIG_API_CALLBACK_RESULT_SUCCESS`). -/
def WUPSCONFIG_API_CALLBACK_RESULT_SUCCESS : Int := 0

/-- Error status returned by config callbacks
(`WUPSCONFIG_API_CALLBACK_RESULT_ERROR`). -/
def WUPSCONFIG_API_CALLBACK_RESULT_ERROR : Int := -100

/-- C callback `ConfigMenu::_open_callback` (core/src/config/mod.rs, lines
121-129): run the plugin-supplied `open` handler on the fresh root handle
and collapse its result to a bare status — SUCCESS for `Ok`, ERROR for any
`Err`, the error value itself being dropped.  The outcome of the handler is the
argument of the function. -/
def ConfigMenu.openCallback (result : Except MenuError Unit) : Int :=
  match result with
  | .ok _ => WUPSCONFIG_API_CALLBACK_RESULT_SUCCESS
  | .error _ => WUPSCONFIG_API_CALLBACK_RESULT_ERROR

/-- C callback `ConfigMenu::_close_callback` (core/src/config/mod.rs, line
134): the function registered as the close callback at
`WUPSConfigAPI_Init`.  Its body is empty — it performs no host call and
leaves the storage host untouched. -/
def ConfigMenu.closeCallback (h : Host) : Host := h

/-- Trait method `ConfigMenu::close` (core/src/config/mod.rs, lines
146-149): flush pending writes with `storage::save(false)`.  Note that
`init` registers `_close_callback`, not this method. -/
def ConfigMenu.close (h : Host) : Except MenuError Unit × Host :=
  match save false h with
  | (.ok _, h2) => (.ok (), h2)
  | (.error e, h2) => (.error (.storage e), h2)

/-- Rust struct `Range` (core/src/config/mod.rs, lines 374-380): text, the
storage id, the default, and the bounds. -/
structure Range where
  text : Bytes
  id : Key
  default : Int
  min : Int
  max : Int
deriving DecidableEq, Repr

/-- Storage-relevant behaviour of `<Range as MenuItem>::attach`
(core/src/config/mod.rs, lines 399-433): load the stored `i32` for the id;
on success report it as the current value when `v > self.min && v <
self.max` holds and the default otherwise; on `NotFound` store the default
and report it; propagate any other storage error.  The result is the
`current` value handed to `WUPSConfigItemIntegerRange_AddToCategory`
together with the updated host state (the host add call itself is modelled
as succeeding). -/
def Range.attach (r : Range) (h : Host) : Except MenuError (Int × Host) :=
  match loadI32 r.id h with
  | .ok v => .ok ((if r.min < v ∧ v < r.max then v else r.default), h)
  | .error .notFound =>
    match storeI32 r.id r.default h with
    | (.ok _, h2) => .ok (r.default, h2)
    | (.error e, _) => .error (.storage e)
  | .error e => .error (.storage e)

/-- Rust struct `Select` (core/src/config/mod.rs, lines 506-511): text, the
storage id, the default index, and the option texts. -/
structure Select where
  text : Bytes
  id : Key
  default : Nat
  options : List Bytes
deriving DecidableEq, Repr

/-- Storage-relevant behaviour of `<Select as MenuItem>::attach`
(core/src/config/mod.rs, lines 526-573): convert the option texts to C
strings (failing on interior null bytes), load the stored `u32` index for
the id; on success report it as current when `v > 0 && v < options.len()`
holds and the default otherwise; on `NotFound` store the default index and
report it; propagate any other storage error.  The result is the `current`
index handed to `WUPSConfigItemMultipleValues_AddToCategory` together with
the updated host state. -/
def Select.attach (s : Select) (h : Host) : Except MenuError (Nat × Host) :=
  if s.options.any (fun o => o.contains 0) then .error .internalNullByte
  else
    match loadU32 s.id h with
    | .ok v =>
      .ok ((if 0 < v ∧ v < s.options.length then v else s.default), h)
    | .error .notFound =>
      match storeU32 s.id s.default h with
      | (.ok _, h2) => .ok (s.default, h2)
      | (.error e, _) => .error (.storage e)
    | .error e => .error (.storage e)

-- Descriptor and interception macros (macros/src/lib.rs).

/-- Proc macro `wups_meta` (macros/src/lib.rs, lines 23-63): the static
byte record it emits into the `.wups.meta` section, built by
`format!` as name, an equals sign, the value, and a trailing NUL.  Chars
stand for bytes; on the ASCII names and values the macro receives the two
coincide. -/
def wups_meta_record (name value : String) : String :=
  name ++ "=" ++ value ++ "\x00"

/-- Diagnostic message of the generated wrapper of `function_hook`
(macros/src/lib.rs, line 639): the `expect` message naming the function
that was not hooked. -/
def hook_missing_message (name : String) : String :=
  "The function \"" ++ name ++ "\" was not properly hooked."

/-- Generated wrapper body of `function_hook` (macros/src/lib.rs, lines
636-642): read the `real_<function>` slot; if it is still `None`, abort
(`Option::expect`, modelled as `Except.error`) with the diagnostic naming
the function; otherwise bind `hooked` to the original function and run the
block of the user with it. -/
def function_hook_wrapper {α β : Type} (name : String) (real_slot : Option α)
    (body : α → β) : Except String β :=
  match real_slot with
  | none => .error (hook_missing_message name)
  | some hooked => .ok (body hooked)

-- Helper lemmas.

theorem ofI32_lt (v : Int) : ofI32 v < 256 ^ 4 := by
  have hp : (256 : Nat) ^ 4 = 4294967296 := by norm_num
  have h2 : (2 : Int) ^ 32 = 4294967296 := by norm_num
  rw [hp, ofI32, h2]
  omega

theorem toI32_ofI32 (v : Int) (hlo : -(2 ^ 31) ≤ v) (hhi : v < 2 ^ 31) :
    toI32 (ofI32 v) = v := by
  have e1 : (2 : Nat) ^ 31 = 2147483648 := by norm_num
  have e2 : (2 : Int) ^ 32 = 4294967296 := by norm_num
  have e3 : (2 : Int) ^ 31 = 2147483648 := by norm_num
  rw [e3] at hlo hhi
  simp only [toI32, ofI32, e1, e2, e3]
  split <;> omega

/-- A successful fixed-width store of a bounded value rewrites to the
explicit host insertion. -/
theorem fixed_store_eq (F : FixedTy) (key : Key) (v : Nat) (h : Host)
    (hk : key.contains 0 = false) :
    StorageCompatible.store F key v h =
      (.ok (), ⟨insertItem h.items key ⟨F.tag, natToBytes F.size v⟩,
        h.saveLog⟩) := by
  have hk2 : (0 : Nat) ∉ key := by simpa using hk
  simp [StorageCompatible.store, hk2, hostStoreItem, StorageError.tryFrom,
    WUPS_STORAGE_ERROR_SUCCESS]

/-- A fixed-width load of a present, well-typed, full-width item decodes it
whole. -/
theorem fixed_load_found (F : FixedTy) (key : Key) (v : Nat) (h : Host)
    (hk : key.contains 0 = false)
    (hst : lookupItem h.items key = some ⟨F.tag, natToBytes F.size v⟩)
    (hv : v < 256 ^ F.size) :
    StorageCompatible.load F key h = .ok v := by
  have hk2 : (0 : Nat) ∉ key := by simpa using hk
  simp [StorageCompatible.load, hk2, hostGetItem, hst, natToBytes_length,
    StorageError.tryFrom, WUPS_STORAGE_ERROR_SUCCESS, Nat.sub_self,
    bytesToNat_natToBytes F.size v hv]

-- Claim theorems.

/-- C5: for every supported fixed-width type (i32, i64, u32, u64, bool,
f32, f64, given with their byte widths and type tags) and every value
(represented by its full `size_of::<T>()`-byte memory image, which is what
the code marshals), a store on a key without interior null bytes succeeds
and a subsequent load of the same key returns exactly the stored value: the
full width round-trips through the host store. -/
theorem fixed_store_load_roundtrip (F : FixedTy) (_hF : F ∈ supportedFixed)
    (key : Key) (v : Nat) (h : Host) (hk : key.contains 0 = false)
    (hv : v < 256 ^ F.size) :
    (StorageCompatible.store F key v h).1 = .ok ()
    ∧ StorageCompatible.load F key (StorageCompatible.store F key v h).2
        = .ok v := by
  rw [fixed_store_eq F key v h hk]
  refine ⟨rfl, ?_⟩
  exact fixed_load_found F key v _ hk
    (lookupItem_insertItem_self h.items key _) hv

/-- Concrete instantiation of the fixed-width round-trip at type u32, key
byte 107, value 42, over the empty host store. -/
theorem fixed_store_load_roundtrip_witness :
    (StorageCompatible.store ⟨.u32, 4⟩ [107] 42 emptyHost).1 = .ok ()
    ∧ StorageCompatible.load ⟨.u32, 4⟩ [107]
        (StorageCompatible.store ⟨.u32, 4⟩ [107] 42 emptyHost).2 = .ok 42 :=
  fixed_store_load_roundtrip ⟨.u32, 4⟩ (by decide) [107] 42 emptyHost
    (by decide) (by norm_num)

/-- C6: a fixed-width load of a key absent from the host store returns
`NotFound`, and `load_or_default` returns the default of the type (the zero
value) whenever the underlying load fails for any reason, an absent key
included; being a total function, it never fails. -/
theorem load_absent_not_found (F : FixedTy) (_hF : F ∈ supportedFixed)
    (key : Key) (h : Host) (hk : key.contains 0 = false) :
    (lookupItem h.items key = none
        → StorageCompatible.load F key h = .error .notFound)
    ∧ (∀ e : StorageError, StorageCompatible.load F key h = .error e
        → load_or_default F key h = 0) := by
  constructor
  · intro habs
    have hk2 : (0 : Nat) ∉ key := by simpa using hk
    have htf : StorageError.tryFrom WUPS_STORAGE_ERROR_NOT_FOUND
        = .error .notFound := rfl
    simp [StorageCompatible.load, hk2, hostGetItem, habs, htf]
  · intro e he
    simp [load_or_default, he]

/-- Concrete instantiation of the absent-key behaviour at type s32, key
byte 107, over the empty host store. -/
theorem load_absent_not_found_witness :
    (lookupItem emptyHost.items [107] = none
        → StorageCompatible.load ⟨.s32, 4⟩ [107] emptyHost
            = .error .notFound)
    ∧ (∀ e : StorageError,
        StorageCompatible.load ⟨.s32, 4⟩ [107] emptyHost = .error e
        → load_or_default ⟨.s32, 4⟩ [107] emptyHost = 0) :=
  load_absent_not_found ⟨.s32, 4⟩ (by decide) [107] emptyHost (by decide)

/-- C7: a text load of a stored item shorter than the 1024-byte buffer
succeeds (a short read is tolerated), returns the bytes the host returned with at most
one trailing NUL byte stripped (the returned content is either the stored
bytes themselves or those bytes minus a single trailing NUL), and returns
the stored content entirely unaltered whenever it does not end in a NUL
byte. -/
theorem string_load_short_read (key : Key) (b : Bytes) (h : Host)
    (hk : key.contains 0 = false)
    (hb : lookupItem h.items key = some ⟨.string, b⟩)
    (hlen : b.length < STORAGE_MAX_LENGTH) :
    RustString.load key h = .ok (stripTrailingNul b)
    ∧ (b = stripTrailingNul b ∨ b = stripTrailingNul b ++ [0])
    ∧ (b.getLast? ≠ some 0 → RustString.load key h = .ok b) := by
  have hk2 : (0 : Nat) ∉ key := by simpa using hk
  have hnottoobig : ¬ STORAGE_MAX_LENGTH < b.length := by omega
  have hmain : RustString.load key h = .ok (stripTrailingNul b) := by
    simp [RustString.load, hk2, hostGetItem, hb, hnottoobig,
      StorageError.tryFrom, WUPS_STORAGE_ERROR_SUCCESS]
  refine ⟨hmain, ?_, ?_⟩
  · by_cases hl : b.getLast? = some 0
    · right
      have hne : b ≠ [] := by
        intro h0
        rw [h0] at hl
        simp at hl
      have hlast : b.getLast hne = 0 := by
        have := List.getLast?_eq_getLast b hne
        rw [this] at hl
        exact Option.some.inj hl
      have hsplit := List.dropLast_append_getLast hne
      rw [hlast] at hsplit
      rw [stripTrailingNul, if_pos hl]
      exact hsplit.symm
    · left
      rw [stripTrailingNul, if_neg hl]
  · intro hl
    rw [hmain, stripTrailingNul, if_neg hl]

/-- Concrete instantiation of the text-load behaviour: key byte 107, stored
bytes 104 then a trailing NUL, read back as the single byte 104. -/
theorem string_load_short_read_witness :
    RustString.load [107] ⟨[([107], ⟨.string, [104, 0]⟩)], []⟩
        = .ok (stripTrailingNul [104, 0])
    ∧ ([104, 0] = stripTrailingNul [104, 0]
        ∨ [104, 0] = stripTrailingNul [104, 0] ++ [0])
    ∧ (([104, 0] : Bytes).getLast? ≠ some 0
        → RustString.load [107] ⟨[([107], ⟨.string, [104, 0]⟩)], []⟩
            = .ok [104, 0]) :=
  string_load_short_read [107] [104, 0] ⟨[([107], ⟨.string, [104, 0]⟩)], []⟩
    (by decide) rfl (by norm_num [STORAGE_MAX_LENGTH])

/-- C2: the claim says the close callback registered at config-menu init
flushes pending storage writes via `save(force=false)` when the host
invokes it.  The code violates this: the registered callback
(`_close_callback`) has an empty body and performs no save at all; the
flush lives in `ConfigMenu::close`, which `init` never registers and which
nothing invokes.  This theorem evaluates both: the registered callback
leaves the host state (in particular its save log) untouched, while the
unregistered `close` method would have appended exactly one
`save(force=false)` call. -/
theorem close_callback_does_not_flush (h : Host) :
    ConfigMenu.closeCallback h = h
    ∧ (ConfigMenu.close h).2.saveLog = h.saveLog ++ [false]
    ∧ (ConfigMenu.close h).1 = .ok () := by
  refine ⟨rfl, ?_, ?_⟩ <;>
    simp [ConfigMenu.close, save, hostSaveStorage, StorageError.tryFrom,
      WUPS_STORAGE_ERROR_SUCCESS]

/-- A successful text store of an under-bound value rewrites to the
explicit host insertion. -/
theorem string_store_eq (key : Key) (value : Bytes) (h : Host)
    (hk : key.contains 0 = false)
    (hsz : value.length < STORAGE_MAX_LENGTH) :
    RustString.store key value h =
      (.ok (), ⟨insertItem h.items key ⟨.string, value⟩, h.saveLog⟩) := by
  have hk2 : (0 : Nat) ∉ key := by simpa using hk
  have hnot : ¬ STORAGE_MAX_LENGTH ≤ value.length := by omega
  simp [RustString.store, hk2, hnot, hostStoreItem, StorageError.tryFrom,
    WUPS_STORAGE_ERROR_SUCCESS]

/-- A successful binary store of an under-bound value rewrites to the
explicit host insertion. -/
theorem vec_store_eq (key : Key) (value : Bytes) (h : Host)
    (hk : key.contains 0 = false)
    (hsz : value.length < STORAGE_MAX_LENGTH) :
    RustVecU8.store key value h =
      (.ok (), ⟨insertItem h.items key ⟨.binary, value⟩, h.saveLog⟩) := by
  have hk2 : (0 : Nat) ∉ key := by simpa using hk
  have hnot : ¬ STORAGE_MAX_LENGTH ≤ value.length := by omega
  simp [RustVecU8.store, hk2, hnot, hostStoreItem, StorageError.tryFrom,
    WUPS_STORAGE_ERROR_SUCCESS]

/-- A 1023-byte text value, one byte under the 1024-byte bound. -/
def oneUnderBound : Bytes := List.replicate 1023 97

/-- A host store that already holds a one-byte text value under key 107. -/
def hostWithOldString : Host := ⟨[([107], ⟨.string, [65]⟩)], []⟩

/-- C1: the claim says any text or binary value of byte length at least
1023 (the bound minus one) is rejected with `BufferTooSmall` before any
host call, leaving a previously stored value unchanged.  The code only
rejects lengths of at least 1024: at the claimed failing length 1023 both
the text and the binary store succeed, the host store call is made (the
item appears in the host map), and a previously stored value under the same
key is overwritten. -/
theorem string_store_bound_off_by_one :
    oneUnderBound.length = 1023
    ∧ (RustString.store [107] oneUnderBound emptyHost).1 = .ok ()
    ∧ lookupItem (RustString.store [107] oneUnderBound emptyHost).2.items
        [107] = some ⟨.string, oneUnderBound⟩
    ∧ lookupItem (RustString.store [107] oneUnderBound hostWithOldString).2.items
        [107] = some ⟨.string, oneUnderBound⟩
    ∧ (RustVecU8.store [107] oneUnderBound emptyHost).1 = .ok () := by
  have hlen : oneUnderBound.length = 1023 := by
    rw [oneUnderBound, List.length_replicate]
  have hc : (([107] : Key).contains 0) = false := by decide
  have hsmall : oneUnderBound.length < STORAGE_MAX_LENGTH := by
    rw [hlen]
    norm_num [STORAGE_MAX_LENGTH]
  refine ⟨hlen, ?_, ?_, ?_, ?_⟩
  · rw [string_store_eq [107] oneUnderBound emptyHost hc hsmall]
  · rw [string_store_eq [107] oneUnderBound emptyHost hc hsmall]
    exact lookupItem_insertItem_self emptyHost.items [107] _
  · rw [string_store_eq [107] oneUnderBound hostWithOldString hc hsmall]
    exact lookupItem_insertItem_self hostWithOldString.items [107] _
  · rw [vec_store_eq [107] oneUnderBound emptyHost hc hsmall]

/-- The Range item of the boundary counterexample: storage id is the byte
107, default 5, domain 0 to 10. -/
def rangeCex : Range := ⟨[], [107], 5, 0, 10⟩

/-- A host store holding the i32 value 0 (the minimum of the Range item itself)
under the id of the counterexample. -/
def rangeCexHost : Host := ⟨[([107], ⟨.s32, natToBytes 4 (ofI32 0)⟩)], []⟩

/-- C3 counterexample: the stored value 0 lies within the closed interval
from min = 0 to max = 10, so the claim says attach reports 0 as current;
the strict comparisons of the code reject the boundary value and report the
default 5 instead. -/
theorem range_attach_boundary_cex :
    loadI32 rangeCex.id rangeCexHost = .ok 0
    ∧ rangeCex.min ≤ (0 : Int) ∧ (0 : Int) ≤ rangeCex.max
    ∧ Range.attach rangeCex rangeCexHost = .ok (rangeCex.default, rangeCexHost)
    ∧ rangeCex.default ≠ (0 : Int) := by
  refine ⟨rfl, by decide, by decide, rfl, by decide⟩

/-- C3 amended: for a Range attach with an existing stored i32 value v for
the id of the item, the current value reported to the host equals v whenever v
lies strictly between min and max, and equals the default of the item whenever v
is at or outside the bounds (v at min, at max, or beyond); no error is
raised in the out-of-domain case. -/
theorem range_attach_strict_interior (r : Range) (h : Host) (v : Int)
    (hk : r.id.contains 0 = false)
    (hst : lookupItem h.items r.id = some ⟨.s32, natToBytes 4 (ofI32 v)⟩)
    (hlo : -(2 ^ 31) ≤ v) (hhi : v < 2 ^ 31) :
    Range.attach r h
      = .ok ((if r.min < v ∧ v < r.max then v else r.default), h) := by
  have hfl := fixed_load_found ⟨.s32, 4⟩ r.id (ofI32 v) h hk hst (ofI32_lt v)
  have hload : loadI32 r.id h = .ok v := by
    simp [loadI32, hfl, toI32_ofI32 v hlo hhi]
  simp [Range.attach, hload]

/-- Concrete instantiation of the amended Range attach at the boundary
input: the stored 0 fails the strict test against min = 0, so the default
is reported. -/
theorem range_attach_strict_interior_witness :
    Range.attach rangeCex rangeCexHost
      = .ok ((if rangeCex.min < (0 : Int) ∧ (0 : Int) < rangeCex.max
          then (0 : Int) else rangeCex.default), rangeCexHost) :=
  range_attach_strict_interior rangeCex rangeCexHost 0 (by decide) rfl
    (by norm_num) (by norm_num)

/-- The Select item of the index-zero counterexample: storage id is the
byte 108, default index 1, three options. -/
def selectCex : Select := ⟨[], [108], 1, [[65], [66], [67]]⟩

/-- A host store holding the u32 index 0 under the id of the counterexample. -/
def selectCexHost : Host := ⟨[([108], ⟨.u32, natToBytes 4 0⟩)], []⟩

/-- C4 counterexample: the stored index 0 is strictly below the option
count 3, so the claim says attach reports 0 as current; the `v > 0` conjunct of the code rejects index 0 and reports the default index 1
instead. -/
theorem select_attach_zero_cex :
    loadU32 selectCex.id selectCexHost = .ok 0
    ∧ (0 : Nat) < selectCex.options.length
    ∧ Select.attach selectCex selectCexHost
        = .ok (selectCex.default, selectCexHost)
    ∧ selectCex.default ≠ 0 := by
  refine ⟨rfl, by decide, rfl, by decide⟩

/-- C4 amended: for a Select attach with an existing stored u32 index v and
n options, the current index reported to the host equals v whenever
0 < v < n, and equals the default index of the item whenever v = 0 or v ≥ n; no
error is raised in the out-of-bounds case. -/
theorem select_attach_positive_in_bounds (s : Select) (h : Host) (v : Nat)
    (hopts : s.options.any (fun o => o.contains 0) = false)
    (hk : s.id.contains 0 = false)
    (hst : lookupItem h.items s.id = some ⟨.u32, natToBytes 4 v⟩)
    (hv : v < 256 ^ 4) :
    Select.attach s h
      = .ok ((if 0 < v ∧ v < s.options.length then v else s.default), h) := by
  have hload : loadU32 s.id h = .ok v :=
    fixed_load_found ⟨.u32, 4⟩ s.id v h hk hst hv
  have hopts2 : ∀ o ∈ s.options, (0 : Nat) ∉ o := by simpa using hopts
  simp [Select.attach, hopts2, hload]
  exact hopts2

/-- Concrete instantiation of the amended Select attach at the stored index
0: the strictly-positive test fails, so the default index is reported. -/
theorem select_attach_positive_in_bounds_witness :
    Select.attach selectCex selectCexHost
      = .ok ((if 0 < 0 ∧ 0 < selectCex.options.length
          then 0 else selectCex.default), selectCexHost) :=
  select_attach_positive_in_bounds selectCex selectCexHost 0 (by decide)
    (by decide) rfl (by norm_num)

/-- C8: when the original-function slot of a hooked function is still empty,
the generated wrapper aborts with a diagnostic that names the function that
was not hooked (the function name occurs verbatim in the message), and it
never returns a successful (passed-through or zeroed) result. -/
theorem function_hook_missing_slot {α β : Type} (name : String)
    (body : α → β) :
    function_hook_wrapper name (none : Option α) body
        = .error (hook_missing_message name)
    ∧ name.data <:+: (hook_missing_message name).data
    ∧ (function_hook_wrapper name (none : Option α) body).isOk = false := by
  refine ⟨rfl, ?_, rfl⟩
  refine ⟨("The function \"" : String).data,
    ("\" was not properly hooked." : String).data, ?_⟩
  simp [hook_missing_message, String.data_append]

/-- C9: the metadata record emitted by `wups_meta` for a name/value pair is
exactly the bytes of the name, one equals sign, the bytes of the value, and
a single trailing NUL byte — nothing else, as witnessed by the exact
character decomposition and the resulting length. -/
theorem wups_meta_record_exact (name value : String) :
    (wups_meta_record name value).data
        = name.data ++ ['='] ++ value.data ++ ['\x00']
    ∧ (wups_meta_record name value).length
        = name.length + value.length + 2 := by
  have h1 : ("=" : String).data = ['='] := rfl
  have h2 : ("\x00" : String).data = ['\x00'] := rfl
  have hdata : (wups_meta_record name value).data
      = name.data ++ ['='] ++ value.data ++ ['\x00'] := by
    simp [wups_meta_record, String.data_append, h1, h2]
  refine ⟨hdata, ?_⟩
  have hlen : (wups_meta_record name value).length
      = (wups_meta_record name value).data.length := rfl
  rw [hlen, hdata]
  have hn : name.length = name.data.length := rfl
  have hv : value.length = value.data.length := rfl
  rw [hn, hv]
  simp only [List.length_append, List.length_cons, List.length_nil]
  omega

/-- C10: the C open callback returns the SUCCESS status exactly when the
user-supplied open handler returns `Ok`, returns the ERROR status on every
`Err`, and discards the error value itself (two different errors produce
the same status). -/
theorem open_callback_status (r : Except MenuError Unit) :
    (ConfigMenu.openCallback r = WUPSCONFIG_API_CALLBACK_RESULT_SUCCESS
        ↔ r = .ok ())
    ∧ (∀ e : MenuError,
        ConfigMenu.openCallback (.error e)
          = WUPSCONFIG_API_CALLBACK_RESULT_ERROR)
    ∧ (∀ e1 e2 : MenuError,
        ConfigMenu.openCallback (.error e1)
          = ConfigMenu.openCallback (.error e2)) := by
  refine ⟨?_, fun e => rfl, fun e1 e2 => rfl⟩
  cases r with
  | ok u => cases u; simp [ConfigMenu.openCallback]
  | error e =>
    simp [ConfigMenu.openCallback, WUPSCONFIG_API_CALLBACK_RESULT_ERROR,
      WUPSCONFIG_API_CALLBACK_RESULT_SUCCESS]

/-- Concrete instantiation of the open-callback status theorem at an `Ok`
handler result and at a sample error. -/
theorem open_callback_status_witness :
    (ConfigMenu.openCallback (.ok ()) = WUPSCONFIG_API_CALLBACK_RESULT_SUCCESS
        ↔ (.ok () : Except MenuError Unit) = .ok ())
    ∧ (∀ e : MenuError,
        ConfigMenu.openCallback (.error e)
          = WUPSCONFIG_API_CALLBACK_RESULT_ERROR)
    ∧ (∀ e1 e2 : MenuError,
        ConfigMenu.openCallback (.error e1)
          = ConfigMenu.openCallback (.error e2)) :=
  open_callback_status (.ok ())

end Wups
